import Mathlib

/-!
Verification development for the OpenMM benchmarking script
(`examples/benchmark.py`).  The script is shallowly embedded: each Python
function or top-level fragment becomes a Lean definition over explicit
data (rationals for Python floats, `Option` for `None`, an oracle function
for wall-clock measurements, and `Except` for Python exceptions).
-/

namespace Benchmark

/-- A Python value as used for `argparse` defaults (`None`, strings,
numbers, booleans). -/
inductive PyVal
  | none
  | str (s : String)
  | num (q : ℚ)
  | boolean (b : Bool)
  deriving DecidableEq, Repr

/-- One `parser.add_argument(...)` call: the command-line flag, the `dest`
attribute it fills, its `choices` restriction (if any) and its default. -/
structure OptSpec where
  flag : String
  dest : String
  choices : Option (List String)
  default : PyVal
  deriving DecidableEq, Repr

/-- The `choices` tuple of the `--test` option (benchmark.py line 186). -/
def testChoices : List String :=
  ["gbsa", "rf", "pme", "apoa1rf", "apoa1pme", "apoa1ljpme", "amoebagk",
   "amoebapme", "amber20-dhfr", "amber20-factorix", "amber20-cellulose",
   "amber20-stmv"]

/-- The ten `parser.add_argument` calls of benchmark.py (lines 185-195), in
source order.  `platformNames` is the list of platform names the engine
reports (`mm.Platform.getPlatform(i).getName()`), which the script queries
at line 184 and passes as the `choices` of `--platform`. -/
def benchmarkOptions (platformNames : List String) : List OptSpec :=
  [⟨"--platform", "platform", some platformNames, PyVal.none⟩,
   ⟨"--test", "test", some testChoices, PyVal.none⟩,
   ⟨"--ensemble", "ensemble", some ["NPT", "NVE", "NVT"], PyVal.str "NVT"⟩,
   ⟨"--pme-cutoff", "cutoff", Option.none, PyVal.num (9/10)⟩,
   ⟨"--seconds", "seconds", Option.none, PyVal.num 60⟩,
   ⟨"--polarization", "polarization", some ["direct", "extrapolated", "mutual"],
     PyVal.str "mutual"⟩,
   ⟨"--mutual-epsilon", "epsilon", Option.none, PyVal.num (1/100000)⟩,
   ⟨"--heavy-hydrogens", "heavy", Option.none, PyVal.boolean false⟩,
   ⟨"--device", "device", Option.none, PyVal.none⟩,
   ⟨"--precision", "precision", some ["single", "mixed", "double"],
     PyVal.str "single"⟩]

/-- The `dest` names of the environment-selection options (compute
platform, numeric precision, device index). -/
def envDests : List String := ["platform", "precision", "device"]

/-- The parsed command-line options (`args`), one field per `dest`. -/
structure Options where
  platform : Option String
  test : Option String
  ensemble : String
  cutoff : ℚ
  seconds : ℚ
  polarization : String
  epsilon : ℚ
  heavy : Bool
  device : Option String
  precision : Option String
  deriving DecidableEq, Repr

/-- The nonbonded method passed to `createSystem`. -/
inductive NBMethod
  | PME
  | LJPME
  | CutoffPeriodic
  | CutoffNonPeriodic
  | NoCutoff
  deriving DecidableEq, Repr

/-- The constraint option passed to `createSystem` (`None`, `app.HBonds`
or `app.AllBonds`). -/
inductive Constr
  | noConstraints
  | HBonds
  | AllBonds
  deriving DecidableEq, Repr

/-- The integrator constructed for a test, with its parameters: the MTS
integrators carry the step size (ps); the Langevin-family integrators
carry temperature (K), friction (1/ps) and step size (ps). -/
inductive Integ
  | MTS (dtPs : ℚ)
  | MTSLangevin (temperatureK frictionInvPs dtPs : ℚ)
  | Verlet (dtPs : ℚ)
  | LangevinMiddle (temperatureK frictionInvPs dtPs : ℚ)
  | Langevin (temperatureK frictionInvPs dtPs : ℚ)
  deriving DecidableEq, Repr

/-- The fixed configuration a test name selects in `runOneTest` (lines
34-141): force-field / topology files, coordinate file, nonbonded method,
cutoffs, constraints, hydrogen mass, step size and integrator.  Optional
fields are `none` when the corresponding keyword is not passed. -/
structure TestConfig where
  ffFiles : List String
  inputFile : String
  method : NBMethod
  cutoffNm : Option ℚ
  vdwCutoffNm : Option ℚ
  ewaldTol : Option ℚ
  mutualEps : Option ℚ
  polarizationOpt : Option String
  constraints : Constr
  hydrogenMassAmu : Option ℚ
  dtPs : ℚ
  integ : Integ
  deriving DecidableEq, Repr

/-- The `names` dict of the amber branch (line 82): maps the four
`amber20-*` test names to benchmark file base names; any other key would
raise `KeyError`, modelled by `none`. -/
def amberFileName (testName : String) : Option String :=
  if testName = "amber20-dhfr" then some "JAC"
  else if testName = "amber20-factorix" then some "FactorIX"
  else if testName = "amber20-cellulose" then some "Cellulose"
  else if testName = "amber20-stmv" then some "STMV"
  else Option.none

/-- Python `s.startswith(p)`: whether `p` is a prefix of `s`, expressed on
the character lists of the strings. -/
def strStartsWith (s p : String) : Bool := p.data.isPrefixOf s.data

/-- The system/integrator configuration `runOneTest` builds for a test
name (lines 36-141), as a function of the test name and the parsed
options.  Mirrors the source dispatch: `explicit`, `amoeba`, `apoa1`,
`amber` are computed from the test name exactly as at lines 36-39;
temperature is 300 K and friction is 1/ps for explicit solvent, 91/ps
otherwise (lines 53-57).  Returns `none` exactly when the amber `names`
dict lookup would raise `KeyError`. -/
def configOf (testName : String) (o : Options) : Option TestConfig :=
  let explicitSolvent : Bool := !(["gbsa", "amoebagk"] : List String).contains testName
  let amoeba : Bool := (["amoebagk", "amoebapme"] : List String).contains testName
  let apoa1 : Bool := strStartsWith testName "apoa1"
  let amber : Bool := strStartsWith testName "amber"
  let frictionInvPs : ℚ := if explicitSolvent then 1 else 91
  if amoeba then
    if explicitSolvent then
      some { ffFiles := ["amoeba2009.xml"],
             inputFile := "5dfr_solv-cube_equil.pdb",
             method := NBMethod.PME,
             cutoffNm := some (7/10),
             vdwCutoffNm := some (9/10),
             ewaldTol := some (3/4000),
             mutualEps := some o.epsilon,
             polarizationOpt := some o.polarization,
             constraints := Constr.noConstraints,
             hydrogenMassAmu := Option.none,
             dtPs := 1/500,
             integ := if o.ensemble = "NVE" then Integ.MTS (1/500)
                      else Integ.MTSLangevin 300 frictionInvPs (1/500) }
    else
      some { ffFiles := ["amoeba2009.xml", "amoeba2009_gk.xml"],
             inputFile := "5dfr_minimized.pdb",
             method := NBMethod.NoCutoff,
             cutoffNm := Option.none,
             vdwCutoffNm := Option.none,
             ewaldTol := Option.none,
             mutualEps := some o.epsilon,
             polarizationOpt := some o.polarization,
             constraints := Constr.noConstraints,
             hydrogenMassAmu := Option.none,
             dtPs := 1/500,
             integ := if o.ensemble = "NVE" then Integ.MTS (1/500)
                      else Integ.MTSLangevin 300 frictionInvPs (1/500) }
  else if amber then
    (amberFileName testName).map (fun n =>
      { ffFiles := ["Amber20_Benchmark_Suite/PME/Topologies/" ++ n ++ ".prmtop"],
        inputFile := "Amber20_Benchmark_Suite/PME/Coordinates/" ++ n ++ ".inpcrd",
        method := NBMethod.PME,
        cutoffNm := some o.cutoff,
        vdwCutoffNm := Option.none,
        ewaldTol := Option.none,
        mutualEps := Option.none,
        polarizationOpt := Option.none,
        constraints := Constr.HBonds,
        hydrogenMassAmu := some (3/2),
        dtPs := 1/250,
        integ := if o.ensemble = "NVE" then Integ.Verlet (1/250)
                 else Integ.LangevinMiddle 300 frictionInvPs (1/250) })
  else
    some { ffFiles :=
             if apoa1 then
               ["amber14/protein.ff14SB.xml", "amber14/lipid17.xml",
                "amber14/tip3p.xml"]
             else if explicitSolvent then ["amber99sb.xml", "tip3p.xml"]
             else ["amber99sb.xml", "amber99_obc.xml"],
           inputFile :=
             if apoa1 then "apoa1.pdb"
             else if explicitSolvent then "5dfr_solv-cube_equil.pdb"
             else "5dfr_minimized.pdb",
           method :=
             if apoa1 then
               if testName = "apoa1pme" then NBMethod.PME
               else if testName = "apoa1ljpme" then NBMethod.LJPME
               else NBMethod.CutoffPeriodic
             else if explicitSolvent then
               if testName = "pme" then NBMethod.PME
               else NBMethod.CutoffPeriodic
             else NBMethod.CutoffNonPeriodic,
           cutoffNm :=
             if apoa1 then
               if testName = "apoa1pme" ∨ testName = "apoa1ljpme" then
                 some o.cutoff
               else some 1
             else if explicitSolvent then
               if testName = "pme" then some o.cutoff else some 1
             else some 2,
           vdwCutoffNm := Option.none,
           ewaldTol := Option.none,
           mutualEps := Option.none,
           polarizationOpt := Option.none,
           constraints := if o.heavy then Constr.AllBonds else Constr.HBonds,
           hydrogenMassAmu := if o.heavy then some 4 else some (3/2),
           dtPs := if o.heavy then 1/200 else 1/250,
           integ :=
             if o.heavy then
               if o.ensemble = "NVE" then Integ.Verlet (1/200)
               else Integ.Langevin 300 frictionInvPs (1/200)
             else
               if o.ensemble = "NVE" then Integ.Verlet (1/250)
               else Integ.LangevinMiddle 300 frictionInvPs (1/250) }

/-- A force attached to the `System`: either one of the force objects the
engine's `createSystem` produced (identified by its class name) or the
`MonteCarloBarostat` the script itself adds, with its pressure (bar),
temperature (K) and interval arguments. -/
inductive SForce
  | ff (name : String)
  | barostat (pressureBar temperatureK : ℚ) (interval : ℕ)
  deriving DecidableEq, Repr

/-- Whether a force is a `MonteCarloBarostat`. -/
def SForce.isBarostat : SForce → Bool
  | SForce.barostat _ _ _ => true
  | _ => false

/-- Lines 142-143 of `runOneTest`: the force list of the system after the
ensemble check, given the list `createdForces` the engine's `createSystem`
produced.  If the ensemble is NPT a `MonteCarloBarostat(1*unit.bar,
temperature, 100)` is appended, with `temperature = 300*unit.kelvin`. -/
def systemForces (createdForces : List SForce) (o : Options) : List SForce :=
  createdForces ++
    (if o.ensemble = "NPT" then [SForce.barostat 1 300 100] else [])

/-- Lines 145-152 of `runOneTest`: the context-properties dict passed to
`mm.Context`.  `DeviceIndex` is set when `--device` was given and the
platform is CUDA or OpenCL; `Precision` is set when `--precision` is not
`None` and the platform is CUDA or OpenCL. -/
def ctxProperties (o : Options) (platformName : String) : List (String × String) :=
  (match o.device with
   | some d =>
       if platformName = "CUDA" ∨ platformName = "OpenCL" then
         [("DeviceIndex", d)]
       else []
   | Option.none => []) ++
  (match o.precision with
   | some p =>
       if platformName = "CUDA" ∨ platformName = "OpenCL" then
         [("Precision", p)]
       else []
   | Option.none => [])

/-- Lines 146-150 of `runOneTest`: the warm-up step count `initialSteps`.
It starts at 5 and is raised to 250 inside the CUDA/OpenCL device branch
when the device string contains a comma or a space. -/
def warmupSteps (o : Options) (platformName : String) : ℕ :=
  match o.device with
  | some d =>
      if (platformName = "CUDA" ∨ platformName = "OpenCL")
          ∧ (d.data.contains ',' = true ∨ d.data.contains ' ' = true) then 250
      else 5
  | Option.none => 5

/-- The state of an engine `Context` as far as timing is concerned: how
many integration steps and energy evaluations have been issued, and the
current wall-clock reading in microseconds (`datetime.now()`). -/
structure Ctx where
  stepsDone : ℕ
  energyEvals : ℕ
  clockUs : ℕ
  deriving DecidableEq, Repr

/-- `context.getIntegrator().step(n)`: performs `n` integration steps;
each step advances the wall clock by `stepCostUs` microseconds. -/
def ctxStep (stepCostUs : ℕ) (n : ℕ) (c : Ctx) : Ctx :=
  { stepsDone := c.stepsDone + n,
    energyEvals := c.energyEvals,
    clockUs := c.clockUs + n * stepCostUs }

/-- `context.getState(getEnergy=True)`: forces an energy evaluation,
advancing the wall clock by `energyCostUs` microseconds. -/
def ctxEnergy (energyCostUs : ℕ) (c : Ctx) : Ctx :=
  { stepsDone := c.stepsDone,
    energyEvals := c.energyEvals + 1,
    clockUs := c.clockUs + energyCostUs }

/-- `timedelta.seconds` of an elapsed duration of `us` microseconds:
the whole seconds of the duration, modulo one day. -/
def tdSeconds (us : ℕ) : ℕ := us / 1000000 % 86400

/-- `timedelta.microseconds` of an elapsed duration of `us` microseconds. -/
def tdMicroseconds (us : ℕ) : ℕ := us % 1000000

/-- `elapsed.seconds + elapsed.microseconds*1e-6` for an elapsed duration
of `us` microseconds (benchmark.py line 18). -/
def pyElapsedSeconds (us : ℕ) : ℚ :=
  (tdSeconds us : ℚ) + (tdMicroseconds us : ℚ) / 1000000

/-- `timeIntegration(context, steps, initialSteps)` (lines 9-18):
integrates `initialSteps` warm-up steps and forces an energy evaluation,
reads the clock, integrates `steps` steps and forces another energy
evaluation, reads the clock again, and returns the elapsed seconds
(`elapsed.seconds + elapsed.microseconds*1e-6`) together with the final
context state.  `stepCostUs`/`energyCostUs` say how long the engine takes
per step / per energy evaluation. -/
def timeIntegration (stepCostUs energyCostUs : ℕ) (c : Ctx)
    (steps initialSteps : ℕ) : ℚ × Ctx :=
  let c1 := ctxStep stepCostUs initialSteps c
  let c2 := ctxEnergy energyCostUs c1
  let startUs := c2.clockUs
  let c3 := ctxStep stepCostUs steps c2
  let c4 := ctxEnergy energyCostUs c3
  let endUs := c4.clockUs
  (pyElapsedSeconds (endUs - startUs), c4)

/-- Python `int()` applied to a rational: truncation toward zero. -/
def pyInt (q : ℚ) : ℤ := if 0 ≤ q then ⌊q⌋ else ⌈q⌉

/-- The `while True` timing loop of `runOneTest` (lines 170-177), run with
`fuel` remaining iterations.  `measure i steps` is the value
`timeIntegration(context, steps, initialSteps)` returns at the i-th
iteration of the loop.  Returns `some (steps, time)` for the iteration
that first measures `time >= 0.5*options.seconds`; the update rules are
`steps = int(steps*1.0/time)` when `time < 0.5` and
`steps = int(steps*options.seconds/time)` otherwise. -/
def timingLoop (measure : ℕ → ℤ → ℚ) (secs : ℚ) :
    ℕ → ℕ → ℤ → Option (ℤ × ℚ)
  | 0, _, _ => Option.none
  | fuel + 1, i, steps =>
    let t := measure i steps
    if (1/2 : ℚ) * secs ≤ t then some (steps, t)
    else
      timingLoop measure secs fuel (i + 1)
        (if t < (1/2 : ℚ) then pyInt ((steps : ℚ) * 1 / t)
         else pyInt ((steps : ℚ) * secs / t))

/-- The timing loop as `runOneTest` enters it: `steps = 20` (line 169). -/
def runTimingLoop (measure : ℕ → ℤ → ℚ) (secs : ℚ) (fuel : ℕ) :
    Option (ℤ × ℚ) :=
  timingLoop measure secs fuel 0 20

/-- The timing loop written from the specification text: start at 20
steps; for every iteration whose measurement is below half the target
duration, multiply the step count by `1/time` when the measurement took
under 0.5 seconds and by `seconds/time` otherwise (truncating to an
integer); exit exactly when a measurement takes at least half the target
duration. -/
def claimTimingLoop (measure : ℕ → ℤ → ℚ) (secs : ℚ) :
    ℕ → ℕ → ℤ → Option (ℤ × ℚ)
  | 0, _, _ => Option.none
  | fuel + 1, i, steps =>
    let t := measure i steps
    if t < (1/2 : ℚ) * secs then
      claimTimingLoop measure secs fuel (i + 1)
        (if t < (1/2 : ℚ) then pyInt ((steps : ℚ) * (1 / t))
         else pyInt ((steps : ℚ) * (secs / t)))
    else some (steps, t)

/-- `claimTimingLoop` entered with the initial step count 20. -/
def claimRunTimingLoop (measure : ℕ → ℤ → ℚ) (secs : ℚ) (fuel : ℕ) :
    Option (ℤ × ℚ) :=
  claimTimingLoop measure secs fuel 0 20

/-- What the script prints after the loop (lines 178-179): the step count
and elapsed time of the final measurement, and the throughput
`(dt*steps*86400/time).value_in_unit(unit.nanoseconds)`. -/
structure Report where
  stepsIntegrated : ℤ
  elapsedSeconds : ℚ
  nsPerDay : ℚ
  deriving DecidableEq, Repr

/-- The throughput printed at line 179: `dt*steps*86400/time` is a
quantity in picoseconds (`dt` is expressed in ps); `value_in_unit(unit.nanoseconds)`
divides it by 1000. -/
def nsPerDayReport (dtPs : ℚ) (steps : ℤ) (time : ℚ) : ℚ :=
  dtPs * (steps : ℚ) * 86400 / time / 1000

/-- The timing loop followed by the report (lines 169-179): `none` when
the loop does not exit within `fuel` iterations. -/
def runBenchmark (dtPs : ℚ) (measure : ℕ → ℤ → ℚ) (secs : ℚ) (fuel : ℕ) :
    Option Report :=
  (runTimingLoop measure secs fuel).map (fun r =>
    { stepsIntegrated := r.1,
      elapsedSeconds := r.2,
      nsPerDay := nsPerDayReport dtPs r.1 r.2 })

/-- A Python-3 exception object.  `message` is `some s` when the object
has a `message` attribute (Python 3 removed `BaseException.message`, so
standard exceptions have none); accessing `.message` on an object without
one raises `AttributeError`. -/
structure PyExn where
  message : Option String
  deriving DecidableEq, Repr

/-- The fixed test list of the no-`--test` path (line 208). -/
def defaultTests : List String :=
  ["gbsa", "rf", "pme", "apoa1rf", "apoa1pme", "apoa1ljpme", "amoebagk",
   "amoebapme"]

/-- The `for test in (...): try: runOneTest(test, args) except Exception
as ex: print('Test failed: %s' % ex.message)` loop (lines 208-212).
`outcome t` is `none` when `runOneTest t` returns normally and `some e`
when it raises `e`.  The handler evaluates `ex.message`; on an exception
object without a `message` attribute that access itself raises
`AttributeError`, which the `except` clause does not cover, aborting the
whole loop.  Returns the list of tests attempted, or the uncaught error. -/
def mainLoop (outcome : String → Option PyExn) :
    List String → Except String (List String)
  | [] => Except.ok []
  | t :: rest =>
    match outcome t with
    | Option.none => (mainLoop outcome rest).map (fun l => t :: l)
    | some e =>
      match e.message with
      | some _ => (mainLoop outcome rest).map (fun l => t :: l)
      | Option.none => Except.error "AttributeError"

/-- The outcome of running the script top level. -/
inductive ScriptResult
  | usageError (msg : String)
  | finished (r : Except String (List String))
  deriving Repr

/-- Lines 207-214: with `--test` given, `runOneTest` is called once with
no exception handler (an exception propagates); otherwise the
`defaultTests` loop runs. -/
def runSelected (args : Options) (outcome : String → Option PyExn) :
    Except String (List String) :=
  match args.test with
  | Option.none => mainLoop outcome defaultTests
  | some t =>
    match outcome t with
    | Option.none => Except.ok [t]
    | some _ => Except.error "uncaught exception from runOneTest"

/-- The script top level after parsing (lines 196-214): if `--platform`
was not supplied, `parser.error('No platform specified')` terminates the
script before any benchmark runs; otherwise the selected benchmarks run. -/
def scriptMain (args : Options) (outcome : String → Option PyExn) :
    ScriptResult :=
  if args.platform = Option.none then
    ScriptResult.usageError "No platform specified"
  else ScriptResult.finished (runSelected args outcome)

/-- A concrete parsed-options value used to instantiate theorems: CUDA
platform, NPT ensemble, multi-device string, otherwise the parser
defaults. -/
def optsEx : Options :=
  { platform := some "CUDA", test := Option.none, ensemble := "NPT",
    cutoff := 9/10, seconds := 60, polarization := "mutual",
    epsilon := 1/100000, heavy := false, device := some "0,1",
    precision := some "single" }

/-- A parsed-options value with no `--platform` given. -/
def optsNoPlatform : Options :=
  { platform := Option.none, test := Option.none, ensemble := "NVT",
    cutoff := 9/10, seconds := 60, polarization := "mutual",
    epsilon := 1/100000, heavy := false, device := Option.none,
    precision := some "single" }

/-- An outcome oracle where the gbsa test raises an exception whose object
has no `message` attribute (as every standard Python 3 exception) and all
other tests succeed. -/
def gbsaCrash : String → Option PyExn :=
  fun t => if t = "gbsa" then some { message := Option.none } else Option.none

/-- A measurement oracle that always reports 30 seconds, with a 60 second
target: the very first measurement (20 steps) meets the exit condition. -/
def constMeasure : ℕ → ℤ → ℚ := fun _ _ => 30

lemma runTimingLoop_const : runTimingLoop constMeasure 60 1 = some (20, 30) := by
  unfold runTimingLoop constMeasure
  rw [timingLoop]
  norm_num

lemma runBenchmark_const :
    runBenchmark (1/250) constMeasure 60 1 =
      some { stepsIntegrated := 20, elapsedSeconds := 30, nsPerDay := 144/625 } := by
  unfold runBenchmark
  rw [runTimingLoop_const]
  simp [nsPerDayReport]
  norm_num

lemma pyElapsedSeconds_eq (us : ℕ) (h : us < 86400 * 1000000) :
    pyElapsedSeconds us = (us : ℚ) / 1000000 := by
  unfold pyElapsedSeconds tdSeconds tdMicroseconds
  have h1 : us / 1000000 < 86400 := by omega
  rw [Nat.mod_eq_of_lt h1]
  have key : us / 1000000 * 1000000 + us % 1000000 = us := by omega
  have keyQ : ((us / 1000000 : ℕ) : ℚ) * 1000000 + ((us % 1000000 : ℕ) : ℚ)
      = (us : ℚ) := by exact_mod_cast key
  calc ((us / 1000000 : ℕ) : ℚ) + ((us % 1000000 : ℕ) : ℚ) / 1000000
      = (((us / 1000000 : ℕ) : ℚ) * 1000000 + ((us % 1000000 : ℕ) : ℚ)) / 1000000 := by
        ring
    _ = (us : ℚ) / 1000000 := by rw [keyQ]

lemma timingLoop_eq_claimTimingLoop (measure : ℕ → ℤ → ℚ) (secs : ℚ) :
    ∀ fuel i steps,
      claimTimingLoop measure secs fuel i steps = timingLoop measure secs fuel i steps := by
  intro fuel
  induction fuel with
  | zero => intro i steps; rfl
  | succ f ih =>
    intro i steps
    rw [claimTimingLoop, timingLoop]
    rcases lt_or_le (measure i steps) ((1/2 : ℚ) * secs) with h | h
    · rw [if_pos h, if_neg (not_le.mpr h)]
      have e1 : (steps : ℚ) * (1 / measure i steps) = (steps : ℚ) * 1 / measure i steps := by
        ring
      have e2 : (steps : ℚ) * (secs / measure i steps) = (steps : ℚ) * secs / measure i steps := by
        ring
      rw [e1, e2]
      exact ih _ _
    · rw [if_neg (not_lt.mpr h), if_pos h]

/-- C1: for every benchmark run whose timing loop completes with final
step count `s` and final measured time `t`, the reported throughput is
`dt * s * 86400 / t` with `dt` expressed in nanoseconds (`dtPs / 1000`),
i.e. nanoseconds of simulated time per wall-clock day. -/
theorem C1_report_ns_per_day (dtPs : ℚ) (measure : ℕ → ℤ → ℚ) (secs : ℚ)
    (fuel : ℕ) (s : ℤ) (t : ℚ)
    (h : runTimingLoop measure secs fuel = some (s, t)) :
    runBenchmark dtPs measure secs fuel =
      some { stepsIntegrated := s, elapsedSeconds := t,
             nsPerDay := dtPs / 1000 * (s : ℚ) * 86400 / t } := by
  unfold runBenchmark nsPerDayReport
  rw [h]
  simp only [Option.map_some', Option.some.injEq, Report.mk.injEq]
  exact ⟨trivial, trivial, by ring⟩

/-- Witness for C1 at a concrete run: a constant 30 s measurement against
a 60 s target exits at the first iteration with 20 steps. -/
theorem C1_report_ns_per_day_witness :
    runBenchmark (1/250) constMeasure 60 1 =
      some { stepsIntegrated := 20, elapsedSeconds := 30,
             nsPerDay := (1/250 : ℚ) / 1000 * ((20 : ℤ) : ℚ) * 86400 / 30 } :=
  C1_report_ns_per_day (1/250) constMeasure 60 1 20 30 runTimingLoop_const

/-- C2: the adaptive timing loop starts at 20 steps, exits exactly when a
measurement reaches half the target duration, and otherwise multiplies
the step count by `1/time` (measurement under 0.5 s) or `seconds/time`:
the loop written from the claim text coincides with the one in the code,
for every measurement oracle, target duration and iteration bound. -/
theorem C2_adaptive_loop (measure : ℕ → ℤ → ℚ) (secs : ℚ) (fuel : ℕ) :
    claimRunTimingLoop measure secs fuel = runTimingLoop measure secs fuel := by
  unfold claimRunTimingLoop runTimingLoop
  exact timingLoop_eq_claimTimingLoop measure secs fuel 0 20

/-- C3 counterexample: a completed run with `dt = 0.004 ps`, 20 timed
steps and a 30 s measurement reports `0.2304` (nanoseconds per day), which
is not the steps-per-day value `20 * 86400 / 30 = 57600`. -/
theorem C3_not_steps_per_day :
    runBenchmark (1/250) constMeasure 60 1 =
      some { stepsIntegrated := 20, elapsedSeconds := 30, nsPerDay := 144/625 }
    ∧ (144/625 : ℚ) ≠ ((20 : ℤ) : ℚ) * 86400 / 30 :=
  ⟨runBenchmark_const, by norm_num⟩

/-- C3 (amended): after the timing loop finishes, the script reports the
final step count, the measured elapsed seconds, and the throughput in
nanoseconds per day computed by `nsPerDayReport`. -/
theorem C3_report_contents (dtPs : ℚ) (measure : ℕ → ℤ → ℚ) (secs : ℚ)
    (fuel : ℕ) (rep : Report)
    (h : runBenchmark dtPs measure secs fuel = some rep) :
    ∃ s t, runTimingLoop measure secs fuel = some (s, t)
      ∧ rep.stepsIntegrated = s ∧ rep.elapsedSeconds = t
      ∧ rep.nsPerDay = nsPerDayReport dtPs s t := by
  unfold runBenchmark at h
  cases hr : runTimingLoop measure secs fuel with
  | none => rw [hr] at h; simp at h
  | some r =>
    obtain ⟨s0, t0⟩ := r
    rw [hr] at h
    simp only [Option.map_some', Option.some.injEq] at h
    exact ⟨s0, t0, rfl, by rw [← h], by rw [← h], by rw [← h]⟩

/-- Witness for C3 (amended) at the same concrete run as the
counterexample. -/
theorem C3_report_contents_witness :
    ∃ s t, runTimingLoop constMeasure 60 1 = some (s, t)
      ∧ (Report.mk 20 30 (144/625)).stepsIntegrated = s
      ∧ (Report.mk 20 30 (144/625)).elapsedSeconds = t
      ∧ (Report.mk 20 30 (144/625)).nsPerDay = nsPerDayReport (1/250) s t :=
  C3_report_contents (1/250) constMeasure 60 1 (Report.mk 20 30 (144/625))
    runBenchmark_const

/-- C4: the claim's try/continue error handling does not hold of the code
as written.  With the default test list, a gbsa failure whose exception
object has no `message` attribute (every standard Python 3 exception)
makes the `except` handler's `ex.message` access raise an uncaught
`AttributeError`: the loop aborts instead of continuing with `rf`. -/
theorem C4_handler_aborts :
    mainLoop gbsaCrash defaultTests = Except.error "AttributeError" := by rfl

/-- C5: among the script's command-line options, the environment options
are exactly `--platform` (choices: the platform names the engine
reports), `--device` (default `None`) and `--precision` (choices single /
mixed / double, default single); the parser also carries `--test`
(scenario selection) and `--ensemble` (choices NPT / NVE / NVT, default
NVT). -/
theorem C5_parser_options (platformNames : List String) :
    (benchmarkOptions platformNames).filter (fun s => envDests.contains s.dest) =
      [⟨"--platform", "platform", some platformNames, PyVal.none⟩,
       ⟨"--device", "device", Option.none, PyVal.none⟩,
       ⟨"--precision", "precision", some ["single", "mixed", "double"],
         PyVal.str "single"⟩]
    ∧ (⟨"--test", "test", some testChoices, PyVal.none⟩ : OptSpec) ∈
        benchmarkOptions platformNames
    ∧ (⟨"--ensemble", "ensemble", some ["NPT", "NVE", "NVT"],
         PyVal.str "NVT"⟩ : OptSpec) ∈ benchmarkOptions platformNames := by
  refine ⟨rfl, ?_, ?_⟩ <;> simp [benchmarkOptions]

/-- C6: the `--test` option accepts exactly the twelve listed scenario
names, and every one of them (for every parsed options value) selects a
configuration: `configOf` returns `some` fixed configuration for each. -/
theorem C6_test_enumeration (platformNames : List String) :
    (benchmarkOptions platformNames).filter (fun s => s.flag == "--test") =
      [⟨"--test", "test",
        some ["gbsa", "rf", "pme", "apoa1rf", "apoa1pme", "apoa1ljpme",
              "amoebagk", "amoebapme", "amber20-dhfr", "amber20-factorix",
              "amber20-cellulose", "amber20-stmv"], PyVal.none⟩]
    ∧ ∀ t ∈ testChoices, ∀ o : Options, (configOf t o).isSome = true := by
  refine ⟨rfl, ?_⟩
  intro t ht o
  fin_cases ht <;> rfl

/-- Witness for C6: the gbsa scenario selects a configuration under the
concrete options value. -/
theorem C6_test_enumeration_witness : (configOf "gbsa" optsEx).isSome = true :=
  (C6_test_enumeration []).2 "gbsa" (by simp [testChoices]) optsEx

/-- C7: `timeIntegration` integrates `initialSteps` warm-up steps and one
energy evaluation before reading the clock, then times exactly `steps`
steps plus one energy evaluation, returning the elapsed wall-clock
seconds (`elapsed.seconds + elapsed.microseconds*1e-6`); the warm-up is
excluded: provided the timed region lasts under a day, the returned value
is `(steps * stepCost + energyCost) / 1e6` seconds, independent of
`initialSteps`, and the context has performed `initialSteps + steps`
steps and two energy evaluations in total. -/
theorem C7_timeIntegration (stepCostUs energyCostUs : ℕ) (c : Ctx)
    (steps initialSteps : ℕ)
    (h : steps * stepCostUs + energyCostUs < 86400 * 1000000) :
    (timeIntegration stepCostUs energyCostUs c steps initialSteps).1 =
      ((steps * stepCostUs + energyCostUs : ℕ) : ℚ) / 1000000
    ∧ (timeIntegration stepCostUs energyCostUs c steps initialSteps).2.stepsDone =
        c.stepsDone + initialSteps + steps
    ∧ (timeIntegration stepCostUs energyCostUs c steps initialSteps).2.energyEvals =
        c.energyEvals + 2 := by
  unfold timeIntegration ctxStep ctxEnergy
  refine ⟨?_, rfl, rfl⟩
  have harg : c.clockUs + initialSteps * stepCostUs + energyCostUs
        + steps * stepCostUs + energyCostUs
        - (c.clockUs + initialSteps * stepCostUs + energyCostUs)
      = steps * stepCostUs + energyCostUs := by omega
  simp only []
  rw [harg]
  exact pyElapsedSeconds_eq _ h

/-- Witness for C7 at concrete costs and context. -/
theorem C7_timeIntegration_witness :
    (timeIntegration 100 50 (Ctx.mk 0 0 0) 20 5).1 =
      ((20 * 100 + 50 : ℕ) : ℚ) / 1000000
    ∧ (timeIntegration 100 50 (Ctx.mk 0 0 0) 20 5).2.stepsDone = 0 + 5 + 20
    ∧ (timeIntegration 100 50 (Ctx.mk 0 0 0) 20 5).2.energyEvals = 0 + 2 :=
  C7_timeIntegration 100 50 (Ctx.mk 0 0 0) 20 5 (by decide)

/-- C8: when `--platform` was not supplied, the script terminates with the
parser error `No platform specified` and never reaches `runOneTest`. -/
theorem C8_no_platform (args : Options) (outcome : String → Option PyExn)
    (h : args.platform = Option.none) :
    scriptMain args outcome = ScriptResult.usageError "No platform specified" := by
  unfold scriptMain
  rw [if_pos h]

/-- Witness for C8. -/
theorem C8_no_platform_witness :
    scriptMain optsNoPlatform gbsaCrash = ScriptResult.usageError "No platform specified" :=
  C8_no_platform optsNoPlatform gbsaCrash rfl

/-- C9: for every force list the engine builds (which contains no
barostat) and every options value, the `MonteCarloBarostat(1 bar, 300 K,
interval 100)` is in the final system exactly when the ensemble is NPT,
and any barostat in the final system is that one. -/
theorem C9_barostat_iff_npt (createdForces : List SForce) (o : Options)
    (hb : ∀ f ∈ createdForces, f.isBarostat = false) :
    (SForce.barostat 1 300 100 ∈ systemForces createdForces o ↔ o.ensemble = "NPT")
    ∧ ∀ p T n, SForce.barostat p T n ∈ systemForces createdForces o →
        p = 1 ∧ T = 300 ∧ n = 100 ∧ o.ensemble = "NPT" := by
  have hnotin : ∀ p T n, SForce.barostat p T n ∉ createdForces := by
    intro p T n hmem
    have := hb _ hmem
    simp [SForce.isBarostat] at this
  constructor
  · constructor
    · intro hmem
      rcases List.mem_append.mp hmem with hc | ha
      · exact absurd hc (hnotin 1 300 100)
      · by_cases he : o.ensemble = "NPT"
        · exact he
        · rw [if_neg he] at ha
          simp at ha
    · intro he
      unfold systemForces
      rw [if_pos he]
      simp
  · intro p T n hmem
    rcases List.mem_append.mp hmem with hc | ha
    · exact absurd hc (hnotin p T n)
    · by_cases he : o.ensemble = "NPT"
      · rw [if_pos he] at ha
        simp only [List.mem_singleton, SForce.barostat.injEq] at ha
        exact ⟨ha.1, ha.2.1, ha.2.2, he⟩
      · rw [if_neg he] at ha
        simp at ha

/-- Witness for C9: under NPT with an empty engine force list, the
barostat is present. -/
theorem C9_barostat_iff_npt_witness :
    SForce.barostat 1 300 100 ∈ systemForces [] optsEx :=
  (C9_barostat_iff_npt [] optsEx (by simp)).1.mpr rfl

/-- C10: `DeviceIndex` and `Precision` appear among the context
properties only when the platform name is CUDA or OpenCL, and the warm-up
step count is 5 except that it is 250 exactly when a device string was
given, the platform is CUDA or OpenCL, and the device string contains a
comma or a space. -/
theorem C10_properties_and_warmup (o : Options) (pn : String) :
    ((∃ v, ("DeviceIndex", v) ∈ ctxProperties o pn) → pn = "CUDA" ∨ pn = "OpenCL")
    ∧ ((∃ v, ("Precision", v) ∈ ctxProperties o pn) → pn = "CUDA" ∨ pn = "OpenCL")
    ∧ (warmupSteps o pn = 250 ∨ warmupSteps o pn = 5)
    ∧ (warmupSteps o pn = 250 ↔
        ∃ d, o.device = some d ∧ (pn = "CUDA" ∨ pn = "OpenCL")
          ∧ (d.data.contains ',' = true ∨ d.data.contains ' ' = true)) := by
  refine ⟨?_, ?_, ?_, ?_⟩
  · rintro ⟨v, hv⟩
    by_cases hc : pn = "CUDA" ∨ pn = "OpenCL"
    · exact hc
    · exfalso
      cases hdev : o.device <;> cases hprec : o.precision <;>
        simp [ctxProperties, hdev, hprec, hc] at hv
  · rintro ⟨v, hv⟩
    by_cases hc : pn = "CUDA" ∨ pn = "OpenCL"
    · exact hc
    · exfalso
      cases hdev : o.device <;> cases hprec : o.precision <;>
        simp [ctxProperties, hdev, hprec, hc] at hv
  · cases hdev : o.device with
    | none =>
      right
      unfold warmupSteps
      rw [hdev]
    | some d =>
      have hw : warmupSteps o pn =
          if (pn = "CUDA" ∨ pn = "OpenCL")
              ∧ (d.data.contains ',' = true ∨ d.data.contains ' ' = true)
          then 250 else 5 := by
        unfold warmupSteps
        rw [hdev]
      rw [hw]
      by_cases hcond : (pn = "CUDA" ∨ pn = "OpenCL")
          ∧ (d.data.contains ',' = true ∨ d.data.contains ' ' = true)
      · left; rw [if_pos hcond]
      · right; rw [if_neg hcond]
  · cases hdev : o.device with
    | none =>
      have h5 : warmupSteps o pn = 5 := by
        unfold warmupSteps
        rw [hdev]
      rw [h5]
      apply iff_of_false (by norm_num)
      rintro ⟨d2, hd2, -⟩
      exact Option.noConfusion hd2
    | some d =>
      have hw : warmupSteps o pn =
          if (pn = "CUDA" ∨ pn = "OpenCL")
              ∧ (d.data.contains ',' = true ∨ d.data.contains ' ' = true)
          then 250 else 5 := by
        unfold warmupSteps
        rw [hdev]
      rw [hw]
      by_cases hcond : (pn = "CUDA" ∨ pn = "OpenCL")
          ∧ (d.data.contains ',' = true ∨ d.data.contains ' ' = true)
      · rw [if_pos hcond]
        exact iff_of_true rfl ⟨d, rfl, hcond.1, hcond.2⟩
      · rw [if_neg hcond]
        apply iff_of_false (by norm_num)
        rintro ⟨d2, hd2, hpn, hcontains⟩
        injection hd2 with hdd
        exact hcond ⟨hpn, hdd ▸ hcontains⟩

/-- Witness for C10: on CUDA with device string `0,1` the warm-up step
count is 250. -/
theorem C10_properties_and_warmup_witness : warmupSteps optsEx "CUDA" = 250 :=
  (C10_properties_and_warmup optsEx "CUDA").2.2.2.mpr
    ⟨"0,1", rfl, Or.inl rfl, Or.inl rfl⟩

end Benchmark
